import Mathlib

/-!
Verification of the amount parser and maturity calculator of the financial
chatbot (src/app.py), shallowly embedded over lists of characters, with exact
rational arithmetic standing in for Python floats (all constants of the
program, such as the 15.4 percent tax rate, are exactly representable and the
claims are about the exact formulas).

The embedded functions are, in order:
  * firstNumToken      -- re.findall(r'[\d.]+', text)[0] (none on IndexError)
  * pyFloat            -- float() on a token drawn from the class [\d.]+
  * pyTrunc            -- int() applied to a number (truncation toward zero)
  * parse_investment_string -- the amount parser of app.py
  * matchRateAt / scanGap / searchRate
                       -- re.search(re.escape(p) + ".*?연\s*([\d.]+)\s*%", t);
                          the lazy gap .*? cannot consume a newline, because
                          the dot does not match newline without re.DOTALL
  * calculate_final_amount  -- the calculator of app.py, returning one
                          constructor per syntactically distinct return value
-/

/-- Characters matched by the regex class [\d.] of app.py: decimal digits and
the dot. -/
def isNumCh (c : Char) : Bool := c.isDigit || c = '.'

/-- Characters matched by the regex escape \s (whitespace) as used in the rate
pattern of app.py. -/
def isWsCh (c : Char) : Bool :=
  c = ' ' || c = '\t' || c = '\n' || c = '\r' || c = '\x0b' || c = '\x0c'

/-- Base-ten value of a run of digit characters, most significant first. -/
def digitsVal (l : List Char) : ℕ :=
  l.foldl (fun a c => 10 * a + (c.toNat - '0'.toNat)) 0

/-- Model of Python float() on the tokens produced by the [\d.]+ classes of
app.py: conversion succeeds exactly when the token has at least one digit and
at most one dot, and yields the exact rational value (tokens from these
classes never carry signs, exponents or spaces, so this covers every call
site). -/
def pyFloat (l : List Char) : Option ℚ :=
  let ip := l.takeWhile Char.isDigit
  match l.drop ip.length with
  | [] => if ip.isEmpty then none else some (digitsVal ip)
  | '.' :: fp =>
      if fp.all Char.isDigit && !(ip.isEmpty && fp.isEmpty) then
        some ((digitsVal ip : ℚ) + (digitsVal fp : ℚ) / (10 : ℚ) ^ fp.length)
      else none
  | _ => none

/-- Model of Python int() on a real number: truncation toward zero. -/
def pyTrunc (q : ℚ) : ℤ := if q < 0 then ⌈q⌉ else ⌊q⌋

/-- Model of re.findall(r'[\d.]+', text)[0] in parse_investment_string: the
first maximal run of digit-or-dot characters, scanning left to right; none
models the IndexError raised when no such run exists. -/
def firstNumToken : List Char → Option (List Char)
  | [] => none
  | c :: rest =>
      if isNumCh c then some (c :: rest.takeWhile isNumCh)
      else firstNumToken rest

/-- Embedding of parse_investment_string of app.py: strip commas, convert the
first [\d.]+ token with float(), multiply by 100000000 when the text contains
the marker 억 and by 10000 when it contains the marker 만, truncate with
int(). none models the IndexError (no token) and ValueError (token rejected
by float()) that the caller catches. -/
def parse_investment_string (text : List Char) : Option ℤ :=
  let t := text.filter (fun c => c != ',')
  match firstNumToken t with
  | none => none
  | some tok =>
      match pyFloat tok with
      | none => none
      | some q =>
          let q1 := if '억' ∈ t then q * 100000000 else q
          let q2 := if '만' ∈ t then q1 * 10000 else q1
          some (pyTrunc q2)

/-- Match the tail 연\s*([\d.]+)\s*% of the search pattern of app.py at the
head of the list, returning the captured token. Because \s and [\d.] and the
literal % select disjoint characters, the backtracking regex semantics
coincide with this greedy run-by-run scan. -/
def matchRateAt : List Char → Option (List Char)
  | [] => none
  | c :: rest =>
      if c = '연' then
        let r1 := rest.dropWhile isWsCh
        let tok := r1.takeWhile isNumCh
        let r2 := (r1.dropWhile isNumCh).dropWhile isWsCh
        if tok.isEmpty then none
        else if r2.head? = some '%' then some tok else none
      else none

/-- The lazy gap .*? of the search pattern followed by the rate tail: find the
nearest position at which the tail matches, consuming no newline on the way
(the regex dot does not match a newline). -/
def scanGap : List Char → Option (List Char)
  | [] => none
  | c :: rest =>
      match matchRateAt (c :: rest) with
      | some tok => some tok
      | none => if c = '\n' then none else scanGap rest

/-- Embedding of re.search(re.escape(product_name) + ".*?연\s*([\d.]+)\s*%",
recommendation_text) in app.py: try every start position left to right; at
each, require the literal product name followed by the lazy gap and the rate
tail, and return the captured token of the first position that succeeds. -/
def searchRate (P : List Char) : List Char → Option (List Char)
  | [] => none
  | c :: rest =>
      if P.isPrefixOf (c :: rest) then
        match scanGap ((c :: rest).drop P.length) with
        | some tok => some tok
        | none => searchRate P rest
      else searchRate P rest

/-- Outcomes of calculate_final_amount of app.py, one constructor per
syntactically distinct return value: the amount-error message returned by the
except (IndexError, ValueError) clause, the rate-not-found message, the two
formatted result blocks carrying the figures they display, the generic
calculation-error message of the except Exception clause (no path of the
exact-rational model produces it: in Python it needs an exception other than
IndexError and ValueError), and Python's implicit None when no branch of the
category conditional applies. -/
inductive CalcOutcome where
  | amountErrorMsg : CalcOutcome
  | rateNotFoundMsg (productName : List Char) : CalcOutcome
  | depositResult (principal interest tax finalAmount : ℚ) : CalcOutcome
  | savingsResult (amountStr : List Char)
      (monthly totalPrincipal interest tax finalAmount : ℚ) : CalcOutcome
  | calcErrorMsg : CalcOutcome
  | pyNone : CalcOutcome
deriving DecidableEq

/-- Embedding of calculate_final_amount of app.py. The amount is parsed first;
a failure there, or a ValueError when converting the captured rate token, is
caught by the shared except (IndexError, ValueError) clause and yields the
amount-error message. A failed search yields the rate-not-found message. The
deposit branch applies simple interest with the fixed 0.154 tax rate; the
savings branch treats the amount as a monthly payment over 12 months; any
other category falls through the conditional and returns None. -/
def calculate_final_amount (product_name amount_str recommendation_text
    product_type : List Char) : CalcOutcome :=
  match parse_investment_string amount_str with
  | none => CalcOutcome.amountErrorMsg
  | some principal =>
      match searchRate product_name recommendation_text with
      | none => CalcOutcome.rateNotFoundMsg product_name
      | some tok =>
          match pyFloat tok with
          | none => CalcOutcome.amountErrorMsg
          | some ratePct =>
              let interest_rate := ratePct / 100
              if product_type = "예금".toList then
                let interest := (principal : ℚ) * interest_rate
                let tax := interest * 0.154
                CalcOutcome.depositResult (principal : ℚ) interest tax
                  ((principal : ℚ) + interest - tax)
              else if product_type = "적금".toList then
                let monthly : ℚ := (principal : ℚ)
                let total := monthly * 12
                let interest := monthly * interest_rate * (12 * (12 + 1) / 2) / 12
                let tax := interest * 0.154
                CalcOutcome.savingsResult amount_str monthly total interest tax
                  (total + interest - tax)
              else CalcOutcome.pyNone

/-- A same-line occurrence of the searched rate pattern: the text splits as
some prefix, the literal product name, a gap free of newlines, the marker 연,
a whitespace run, a nonempty digit-or-dot token, a whitespace run and the
percent sign. This is the shape the embedded search detects. -/
def RateOccurrence (P text tok : List Char) : Prop :=
  ∃ s g ws1 ws2 rest,
    text = s ++ (P ++ (g ++ '연' :: (ws1 ++ (tok ++ (ws2 ++ '%' :: rest)))))
    ∧ '\n' ∉ g
    ∧ (∀ c ∈ ws1, isWsCh c = true) ∧ (∀ c ∈ ws2, isWsCh c = true)
    ∧ tok ≠ [] ∧ (∀ c ∈ tok, isNumCh c = true)

/-- The same shape with unbounded intervening text, newlines included: the
shape the specification describes when it says the scan crosses unbounded
intervening text. -/
def RateOccurrenceUnbounded (P text tok : List Char) : Prop :=
  ∃ s g ws1 ws2 rest,
    text = s ++ (P ++ (g ++ '연' :: (ws1 ++ (tok ++ (ws2 ++ '%' :: rest)))))
    ∧ (∀ c ∈ ws1, isWsCh c = true) ∧ (∀ c ∈ ws2, isWsCh c = true)
    ∧ tok ≠ [] ∧ (∀ c ∈ tok, isNumCh c = true)

/-- Modelled from the spec: the token charset cut off after at most one
decimal point, used by the specification's description of the amount parser
("the first maximal run of digits and at most one decimal point"); the
program itself puts no limit on the number of dots in the run. -/
def takeOneDotRun : List Char → List Char
  | [] => []
  | c :: rest =>
      if c.isDigit then c :: takeOneDotRun rest
      else if c = '.' then c :: rest.takeWhile Char.isDigit
      else []

/-- Modelled from the spec: the first numeric token in the specification's
sense, a maximal run of digits with at most one decimal point, scanning left
to right. -/
def specFirstToken : List Char → Option (List Char)
  | [] => none
  | c :: rest =>
      if isNumCh c then some (takeOneDotRun (c :: rest))
      else specFirstToken rest

/-- Modelled from the spec: the amount parser as the specification words it,
identical to parse_investment_string except that the numeric token stops at
the second decimal point instead of swallowing it. Used only to compare the
specified extraction with the implemented one. -/
def spec_parse_amount (text : List Char) : Option ℤ :=
  let t := text.filter (fun c => c != ',')
  match specFirstToken t with
  | none => none
  | some tok =>
      match pyFloat tok with
      | none => none
      | some q =>
          let q1 := if '억' ∈ t then q * 100000000 else q
          let q2 := if '만' ∈ t then q1 * 10000 else q1
          some (pyTrunc q2)

/-! Character-class facts and helper lemmas. -/

/-- A digit-or-dot character is not whitespace. -/
lemma num_not_ws {c : Char} (h : isNumCh c = true) : isWsCh c = false := by
  cases hw : isWsCh c with
  | false => rfl
  | true =>
      exfalso
      have hc := hw
      simp only [isWsCh, Bool.or_eq_true, decide_eq_true_eq] at hc
      rcases hc with ((((rfl | rfl) | rfl) | rfl) | rfl) | rfl <;> exact absurd h (by decide)

/-- A whitespace character is not a digit-or-dot character. -/
lemma ws_not_num {c : Char} (h : isWsCh c = true) : isNumCh c = false := by
  cases hn : isNumCh c with
  | false => rfl
  | true => rw [num_not_ws hn] at h; exact Bool.noConfusion h

/-- The percent sign is not a digit-or-dot character. -/
lemma pct_not_num : isNumCh '%' = false := by decide

/-- The percent sign is not whitespace. -/
lemma pct_not_ws : isWsCh '%' = false := by decide

/-- Where the first maximal digit-or-dot run of a list sits, firstNumToken
returns exactly that run: anything before it is outside the class, the run
itself is inside it and nonempty, and the character right after (if any) is
outside it. -/
lemma firstNumToken_of_split {pre tok suf : List Char}
    (hpre : ∀ c ∈ pre, isNumCh c = false)
    (htok : tok ≠ []) (htok2 : ∀ c ∈ tok, isNumCh c = true)
    (hsuf : ∀ c ∈ suf.take 1, isNumCh c = false) :
    firstNumToken (pre ++ (tok ++ suf)) = some tok := by
  induction pre with
  | nil =>
      cases tok with
      | nil => exact absurd rfl htok
      | cons c tr =>
          have hc : isNumCh c = true := htok2 c (by simp)
          rw [List.nil_append, List.cons_append, firstNumToken, if_pos hc]
          rw [List.takeWhile_append_of_pos (fun a ha => htok2 a (by simp [ha]))]
          cases suf with
          | nil => simp
          | cons d ds =>
              have hd : isNumCh d = false := hsuf d (by simp)
              simp [List.takeWhile_cons, hd]
  | cons a pre' ih =>
      have ha : isNumCh a = false := hpre a (by simp)
      rw [List.cons_append, firstNumToken, if_neg (by simp [ha])]
      exact ih (fun c hc => hpre c (by simp [hc]))

/-- On a list with no digit-or-dot character at all, firstNumToken fails. -/
lemma firstNumToken_none {l : List Char} (h : ∀ c ∈ l, isNumCh c = false) :
    firstNumToken l = none := by
  induction l with
  | nil => rfl
  | cons c rest ih =>
      rw [firstNumToken, if_neg (by simp [h c (by simp)])]
      exact ih (fun d hd => h d (by simp [hd]))

/-- Every value produced by the float model is non-negative (the token
classes carry no sign). -/
lemma pyFloat_nonneg {l : List Char} {q : ℚ} (h : pyFloat l = some q) : 0 ≤ q := by
  simp only [pyFloat] at h
  split at h
  · split at h
    · exact absurd h (by simp)
    · obtain rfl : ((digitsVal _ : ℚ)) = q := by simpa using h
      positivity
  · split at h
    · obtain rfl : ((digitsVal _ : ℚ) + (digitsVal _ : ℚ) / (10 : ℚ) ^ _) = q := by
        simpa using h
      positivity
    · exact absurd h (by simp)
  · exact absurd h (by simp)

/-! Soundness and completeness of the embedded rate search. -/

/-- Any successful tail match decomposes the list as the marker, a whitespace
run, the nonempty digit-or-dot token, a whitespace run and the percent sign. -/
lemma matchRateAt_sound {l tok : List Char} (h : matchRateAt l = some tok) :
    ∃ ws1 ws2 rest, l = '연' :: (ws1 ++ (tok ++ (ws2 ++ '%' :: rest)))
      ∧ (∀ c ∈ ws1, isWsCh c = true) ∧ (∀ c ∈ ws2, isWsCh c = true)
      ∧ tok ≠ [] ∧ (∀ c ∈ tok, isNumCh c = true) := by
  match l with
  | [] => exact absurd h (by simp [matchRateAt])
  | c :: r =>
      simp only [matchRateAt] at h
      by_cases hc : c = '연'
      · rw [if_pos hc] at h
        subst hc
        by_cases he : ((r.dropWhile isWsCh).takeWhile isNumCh).isEmpty
        · rw [if_pos he] at h; exact absurd h (by simp)
        · rw [if_neg he] at h
          by_cases hp : (((r.dropWhile isWsCh).dropWhile isNumCh).dropWhile isWsCh).head?
              = some '%'
          · rw [if_pos hp, Option.some_inj] at h
            subst h
            refine ⟨r.takeWhile isWsCh, ((r.dropWhile isWsCh).dropWhile isNumCh).takeWhile isWsCh,
              (((r.dropWhile isWsCh).dropWhile isNumCh).dropWhile isWsCh).tail, ?_, ?_, ?_, ?_, ?_⟩
            · have h1 : r = r.takeWhile isWsCh ++ r.dropWhile isWsCh :=
                (List.takeWhile_append_dropWhile _ _).symm
              have h2 : r.dropWhile isWsCh =
                  (r.dropWhile isWsCh).takeWhile isNumCh ++ (r.dropWhile isWsCh).dropWhile isNumCh :=
                (List.takeWhile_append_dropWhile _ _).symm
              have h3 : (r.dropWhile isWsCh).dropWhile isNumCh =
                  ((r.dropWhile isWsCh).dropWhile isNumCh).takeWhile isWsCh ++
                    ((r.dropWhile isWsCh).dropWhile isNumCh).dropWhile isWsCh :=
                (List.takeWhile_append_dropWhile _ _).symm
              have h4 : (((r.dropWhile isWsCh).dropWhile isNumCh).dropWhile isWsCh) =
                  '%' :: (((r.dropWhile isWsCh).dropWhile isNumCh).dropWhile isWsCh).tail := by
                cases hl : (((r.dropWhile isWsCh).dropWhile isNumCh).dropWhile isWsCh) with
                | nil => rw [hl] at hp; exact absurd hp (by simp)
                | cons x xs =>
                    rw [hl] at hp
                    simp only [List.head?_cons, Option.some_inj] at hp
                    simp [hp]
              conv_lhs => rw [h1, h2]
              conv_lhs => rw [h3, h4]
            · exact fun c hc => List.mem_takeWhile_imp hc
            · exact fun c hc => List.mem_takeWhile_imp hc
            · simpa using he
            · exact fun c hc => List.mem_takeWhile_imp hc
          · rw [if_neg hp] at h; exact absurd h (by simp)
      · rw [if_neg hc] at h; exact absurd h (by simp)

/-- The tail match succeeds on any list of the decomposed shape and captures
exactly the token. -/
lemma matchRateAt_complete {ws1 tok ws2 rest : List Char}
    (h1 : ∀ c ∈ ws1, isWsCh c = true) (h2 : ∀ c ∈ ws2, isWsCh c = true)
    (h3 : tok ≠ []) (h4 : ∀ c ∈ tok, isNumCh c = true) :
    matchRateAt ('연' :: (ws1 ++ (tok ++ (ws2 ++ '%' :: rest)))) = some tok := by
  have hdw1 : (ws1 ++ (tok ++ (ws2 ++ '%' :: rest))).dropWhile isWsCh
      = tok ++ (ws2 ++ '%' :: rest) := by
    rw [List.dropWhile_append_of_pos h1]
    cases tok with
    | nil => exact absurd rfl h3
    | cons c tr =>
        have : isWsCh c = false := num_not_ws (h4 c (by simp))
        simp [List.dropWhile_cons, this]
  have htw : (tok ++ (ws2 ++ '%' :: rest)).takeWhile isNumCh = tok := by
    rw [List.takeWhile_append_of_pos h4]
    cases ws2 with
    | nil => simp [List.takeWhile_cons, pct_not_num]
    | cons w ws =>
        have : isNumCh w = false := ws_not_num (h2 w (by simp))
        simp [List.takeWhile_cons, this]
  have hdw2 : (tok ++ (ws2 ++ '%' :: rest)).dropWhile isNumCh = ws2 ++ '%' :: rest := by
    rw [List.dropWhile_append_of_pos h4]
    cases ws2 with
    | nil => simp [List.dropWhile_cons, pct_not_num]
    | cons w ws =>
        have : isNumCh w = false := ws_not_num (h2 w (by simp))
        simp [List.dropWhile_cons, this]
  have hdw3 : (ws2 ++ '%' :: rest).dropWhile isWsCh = '%' :: rest := by
    rw [List.dropWhile_append_of_pos h2]
    simp [List.dropWhile_cons, pct_not_ws]
  simp only [matchRateAt, if_pos rfl, hdw1, htw, hdw2, hdw3]
  have : tok.isEmpty = false := by simpa using h3
  simp [this]

/-- Any successful gap scan splits the list into a newline-free gap and a
position where the tail matches. -/
lemma scanGap_sound {l tok : List Char} (h : scanGap l = some tok) :
    ∃ g l2, l = g ++ l2 ∧ '\n' ∉ g ∧ matchRateAt l2 = some tok := by
  induction l with
  | nil => exact absurd h (by simp [scanGap])
  | cons c rest ih =>
      rw [scanGap] at h
      cases hm : matchRateAt (c :: rest) with
      | some t =>
          rw [hm] at h
          simp only [Option.some_inj] at h
          exact ⟨[], c :: rest, by simp, by simp, by rw [hm, h]⟩
      | none =>
          rw [hm] at h
          by_cases hc : c = '\n'
          · rw [if_pos hc] at h; exact absurd h (by simp)
          · rw [if_neg hc] at h
            obtain ⟨g, l2, heq, hg, hm2⟩ := ih h
            refine ⟨c :: g, l2, by simp [heq], ?_, hm2⟩
            intro hmem
            rcases List.mem_cons.mp hmem with hh | hh
            · exact hc hh.symm
            · exact hg hh

/-- If the tail matches somewhere past a newline-free gap, the gap scan
succeeds (possibly capturing at an even earlier position). -/
lemma scanGap_complete {g m tok : List Char} (hg : '\n' ∉ g)
    (hm : matchRateAt m = some tok) : ∃ tok2, scanGap (g ++ m) = some tok2 := by
  induction g with
  | nil =>
      cases m with
      | nil => exact absurd hm (by simp [matchRateAt])
      | cons c r =>
          refine ⟨tok, ?_⟩
          rw [List.nil_append, scanGap, hm]
  | cons c g' ih =>
      have hc : c ≠ '\n' := by intro hh; exact hg (by simp [hh])
      have hg' : '\n' ∉ g' := by intro hh; exact hg (by simp [hh])
      obtain ⟨t2, h2⟩ := ih hg'
      rw [List.cons_append, scanGap]
      cases hm2 : matchRateAt (c :: (g' ++ m)) with
      | some t => exact ⟨t, rfl⟩
      | none => exact ⟨t2, by rw [if_neg hc, h2]⟩

/-- Any successful search splits the text at a start position where the
product name is a literal prefix and the gap scan succeeds on the remainder. -/
lemma searchRate_sound {P l tok : List Char} (h : searchRate P l = some tok) :
    ∃ s l2, l = s ++ l2 ∧ P.isPrefixOf l2 = true
      ∧ scanGap (l2.drop P.length) = some tok := by
  induction l with
  | nil => exact absurd h (by simp [searchRate])
  | cons c rest ih =>
      rw [searchRate] at h
      by_cases hpre : P.isPrefixOf (c :: rest)
      · rw [if_pos hpre] at h
        cases hsc : scanGap ((c :: rest).drop P.length) with
        | some t =>
            rw [hsc] at h
            simp only [Option.some_inj] at h
            exact ⟨[], c :: rest, by simp, hpre, by rw [hsc, h]⟩
        | none =>
            rw [hsc] at h
            obtain ⟨s, l2, heq, hp2, hs2⟩ := ih h
            exact ⟨c :: s, l2, by simp [heq], hp2, hs2⟩
      · rw [if_neg hpre] at h
        obtain ⟨s, l2, heq, hp2, hs2⟩ := ih h
        exact ⟨c :: s, l2, by simp [heq], hp2, hs2⟩

/-- If the text contains the product name followed by a position where the
gap scan succeeds, the search succeeds (possibly capturing elsewhere). -/
lemma searchRate_complete (P s tail : List Char) (h : ∃ t, scanGap tail = some t) :
    ∃ t2, searchRate P (s ++ (P ++ tail)) = some t2 := by
  induction s with
  | nil =>
      obtain ⟨t, ht⟩ := h
      have htail : tail ≠ [] := by
        intro e; rw [e] at ht; exact absurd ht (by simp [scanGap])
      cases hpt : P ++ tail with
      | nil =>
          rcases List.append_eq_nil.mp hpt with ⟨-, h2⟩
          exact absurd h2 htail
      | cons c r =>
          rw [List.nil_append, searchRate]
          have hpre : P.isPrefixOf (c :: r) = true := by
            rw [← hpt]
            exact List.isPrefixOf_iff_prefix.mpr (List.prefix_append P tail)
          rw [if_pos hpre]
          have hdrop : (c :: r).drop P.length = tail := by
            rw [← hpt]; exact List.drop_left P tail
          rw [hdrop, ht]
          exact ⟨t, rfl⟩
  | cons a s' ih =>
      obtain ⟨t2, h2⟩ := ih
      rw [List.cons_append, searchRate]
      by_cases hpre : P.isPrefixOf (a :: (s' ++ (P ++ tail))) = true
      · rw [if_pos hpre]
        cases hsg : scanGap ((a :: (s' ++ (P ++ tail))).drop P.length) with
        | some t3 => exact ⟨t3, rfl⟩
        | none => exact ⟨t2, h2⟩
      · rw [if_neg hpre]
        exact ⟨t2, h2⟩

/-! The claims. -/

/-- C1: for every parsed principal p and extracted annual rate r (in percent),
the deposit branch computes interest = p * (r/100), tax = interest * 0.154 and
net = p + interest - tax, with the 15.4 percent tax rate a fixed constant; in
particular at principal 10,000,000 and rate 3.5 it reports interest 350,000,
tax 53,900 and net 10,296,100. -/
theorem claim_C1_deposit_formula :
    (∀ pn a rt p tok r,
      parse_investment_string a = some p →
      searchRate pn rt = some tok →
      pyFloat tok = some r →
      calculate_final_amount pn a rt "예금".toList =
        CalcOutcome.depositResult (p : ℚ) ((p : ℚ) * (r / 100))
          ((p : ℚ) * (r / 100) * 0.154)
          ((p : ℚ) + (p : ℚ) * (r / 100) - (p : ℚ) * (r / 100) * 0.154))
    ∧ calculate_final_amount "P".toList "1000만원".toList "P 연 3.5%".toList "예금".toList =
        CalcOutcome.depositResult 10000000 350000 53900 10296100 := by
  constructor
  · intro pn a rt p tok r h1 h2 h3
    simp only [calculate_final_amount, h1, h2, h3]
    norm_num
  · simp +decide [calculate_final_amount, parse_investment_string, firstNumToken, pyFloat,
      pyTrunc, digitsVal, isNumCh, searchRate, scanGap, matchRateAt, isWsCh]
    all_goals norm_num

/-- Witness for C1 at a concrete input. -/
theorem claim_C1_witness :
    calculate_final_amount "Q".toList "2000만원".toList "Q 연 2%".toList "예금".toList =
      CalcOutcome.depositResult ((20000000 : ℤ) : ℚ)
        (((20000000 : ℤ) : ℚ) * ((2 : ℚ) / 100))
        (((20000000 : ℤ) : ℚ) * ((2 : ℚ) / 100) * 0.154)
        (((20000000 : ℤ) : ℚ) + ((20000000 : ℤ) : ℚ) * ((2 : ℚ) / 100)
          - ((20000000 : ℤ) : ℚ) * ((2 : ℚ) / 100) * 0.154) :=
  claim_C1_deposit_formula.1 "Q".toList "2000만원".toList "Q 연 2%".toList 20000000 ['2'] 2
    (by simp +decide [parse_investment_string, firstNumToken, pyFloat, pyTrunc, digitsVal,
        isNumCh]
        all_goals norm_num)
    (by decide)
    (by simp +decide [pyFloat, digitsVal])

/-- C2: for every parsed monthly contribution p and extracted annual rate r
(in percent), the savings branch computes total principal p * 12, interest
p * (r/100) * (12 * 13 / 2) / 12, tax = interest * 0.154 and net = total
principal + interest - tax; in particular at monthly contribution 1,000,000
and rate 3.0 it reports total principal 12,000,000, interest 195,000, tax
30,030 and net 12,164,970. -/
theorem claim_C2_savings_formula :
    (∀ pn a rt p tok r,
      parse_investment_string a = some p →
      searchRate pn rt = some tok →
      pyFloat tok = some r →
      calculate_final_amount pn a rt "적금".toList =
        CalcOutcome.savingsResult a (p : ℚ) ((p : ℚ) * 12)
          ((p : ℚ) * (r / 100) * (12 * 13 / 2) / 12)
          ((p : ℚ) * (r / 100) * (12 * 13 / 2) / 12 * 0.154)
          ((p : ℚ) * 12 + (p : ℚ) * (r / 100) * (12 * 13 / 2) / 12
            - (p : ℚ) * (r / 100) * (12 * 13 / 2) / 12 * 0.154))
    ∧ calculate_final_amount "P".toList "100만원".toList "P 연 3.0%".toList "적금".toList =
        CalcOutcome.savingsResult "100만원".toList 1000000 12000000 195000 30030 12164970 := by
  constructor
  · intro pn a rt p tok r h1 h2 h3
    simp only [calculate_final_amount, h1, h2, h3]
    norm_num
    intro hch
    exact absurd hch (by decide)
  · simp +decide [calculate_final_amount, parse_investment_string, firstNumToken, pyFloat,
      pyTrunc, digitsVal, isNumCh, searchRate, scanGap, matchRateAt, isWsCh]
    all_goals norm_num

/-- Witness for C2 at a concrete input. -/
theorem claim_C2_witness :
    calculate_final_amount "Q".toList "200만원".toList "Q 연 2%".toList "적금".toList =
      CalcOutcome.savingsResult "200만원".toList ((2000000 : ℤ) : ℚ)
        (((2000000 : ℤ) : ℚ) * 12)
        (((2000000 : ℤ) : ℚ) * ((2 : ℚ) / 100) * (12 * 13 / 2) / 12)
        (((2000000 : ℤ) : ℚ) * ((2 : ℚ) / 100) * (12 * 13 / 2) / 12 * 0.154)
        (((2000000 : ℤ) : ℚ) * 12 + ((2000000 : ℤ) : ℚ) * ((2 : ℚ) / 100) * (12 * 13 / 2) / 12
          - ((2000000 : ℤ) : ℚ) * ((2 : ℚ) / 100) * (12 * 13 / 2) / 12 * 0.154) :=
  claim_C2_savings_formula.1 "Q".toList "200만원".toList "Q 연 2%".toList 2000000 ['2'] 2
    (by simp +decide [parse_investment_string, firstNumToken, pyFloat, pyTrunc, digitsVal,
        isNumCh]
        all_goals norm_num)
    (by decide)
    (by simp +decide [pyFloat, digitsVal])

/-- C3 (amended): a captured rate token always sits in a same-line occurrence
of the pattern — the text decomposes as an occurrence of the literal product
name, then intervening text free of newlines, then the marker 연, optional
whitespace, the nonempty digit-or-dot token and the percent sign; conversely,
whenever such a same-line occurrence exists the search succeeds; and when the
amount parses but the search fails, the calculator returns the rate-not-found
message for that product name, for any category, rather than crashing. The
original claim's unbounded intervening text fails on the code: the lazy gap
of the pattern cannot cross a newline. -/
theorem claim_C3_rate_search_amended :
    (∀ P text tok, searchRate P text = some tok → RateOccurrence P text tok)
    ∧ (∀ P text tok, RateOccurrence P text tok → ∃ tok2, searchRate P text = some tok2)
    ∧ (∀ pn a rt ct p, parse_investment_string a = some p → searchRate pn rt = none →
        calculate_final_amount pn a rt ct = CalcOutcome.rateNotFoundMsg pn) := by
  refine ⟨?_, ?_, ?_⟩
  · intro P text tok h
    obtain ⟨s, l2, rfl, hpre, hscan⟩ := searchRate_sound h
    obtain ⟨tail, htail⟩ := List.isPrefixOf_iff_prefix.mp hpre
    subst htail
    rw [List.drop_left] at hscan
    obtain ⟨g, m, rfl, hg, hm⟩ := scanGap_sound hscan
    obtain ⟨ws1, ws2, rest2, hmeq, hw1, hw2, ht, hn⟩ := matchRateAt_sound hm
    subst hmeq
    exact ⟨s, g, ws1, ws2, rest2, rfl, hg, hw1, hw2, ht, hn⟩
  · intro P text tok ⟨s, g, ws1, ws2, rest, htext, hg, h1, h2, h3, h4⟩
    subst htext
    exact searchRate_complete P s _ (scanGap_complete hg (matchRateAt_complete h1 h2 h3 h4))
  · intro pn a rt ct p h1 h2
    simp only [calculate_final_amount, h1, h2]

/-- C3 counterexample: the text 상품\n연 1.5% contains the product name 상품
followed, across intervening text, by the shape 연 1.5% — so the original
claim says the extracted rate is 1.5 — yet the search fails, because the
intervening text is a newline, and the calculator reports rate-not-found.
Moreover, on P\n연 1% P 연 2% the code captures 2, the rate after the second
occurrence of P, even though the first decimal number in the shape after the
first occurrence of P is 1. -/
theorem claim_C3_counterexample :
    RateOccurrenceUnbounded "상품".toList "상품\n연 1.5%".toList "1.5".toList
    ∧ searchRate "상품".toList "상품\n연 1.5%".toList = none
    ∧ calculate_final_amount "상품".toList "500만원".toList "상품\n연 1.5%".toList
        "예금".toList = CalcOutcome.rateNotFoundMsg "상품".toList
    ∧ searchRate "P".toList "P\n연 1% P 연 2%".toList = some ['2']
    ∧ RateOccurrenceUnbounded "P".toList "P\n연 1% P 연 2%".toList ['1'] := by
  refine ⟨?_, by decide, ?_, by decide, ?_⟩
  · exact ⟨[], ['\n'], [' '], [], [],
      by decide, by decide, by decide, by decide, by decide⟩
  · simp +decide [calculate_final_amount, parse_investment_string, firstNumToken, pyFloat,
      pyTrunc, digitsVal, isNumCh, searchRate, scanGap, matchRateAt, isWsCh]
  · exact ⟨[], ['\n'], [' '], [], " P 연 2%".toList,
      by decide, by decide, by decide, by decide, by decide⟩

/-- Witness for C3 at concrete inputs, one for each part. -/
theorem claim_C3_witness :
    RateOccurrence "W".toList "W 연 4%".toList ['4']
    ∧ (∃ tok2, searchRate "W".toList "W 연 4%".toList = some tok2)
    ∧ calculate_final_amount "W".toList "3000".toList "없음".toList "예금".toList
        = CalcOutcome.rateNotFoundMsg "W".toList := by
  refine ⟨?_, ?_, ?_⟩
  · exact claim_C3_rate_search_amended.1 "W".toList "W 연 4%".toList ['4'] (by decide)
  · exact claim_C3_rate_search_amended.2.1 "W".toList "W 연 4%".toList ['4']
      ⟨[], [' '], [' '], [], [], by decide, by decide, by decide, by decide, by decide, by decide⟩
  · exact claim_C3_rate_search_amended.2.2 "W".toList "3000".toList "없음".toList
      "예금".toList 3000
      (by simp +decide [parse_investment_string, firstNumToken, pyFloat, pyTrunc, digitsVal,
          isNumCh])
      (by decide)

/-- Truncation of a non-negative number is non-negative. -/
lemma pyTrunc_nonneg {q : ℚ} (h : 0 ≤ q) : 0 ≤ pyTrunc q := by
  rw [pyTrunc, if_neg (not_lt.mpr h)]
  exact Int.le_floor.mpr (by exact_mod_cast h)

/-- The sequential unit multipliers of the parser, whose membership tests run
over the comma-stripped text, equal the independent product-form multipliers
over the original text. -/
lemma unit_factors_eq (t : List Char) (q : ℚ) :
    (if '만' ∈ t.filter (fun c => c != ',') then
      (if '억' ∈ t.filter (fun c => c != ',') then q * 100000000 else q) * 10000
      else if '억' ∈ t.filter (fun c => c != ',') then q * 100000000 else q)
    = q * (if '억' ∈ t then 100000000 else 1) * (if '만' ∈ t then 10000 else 1) := by
  have hm1 : ('억' ∈ t.filter (fun c => c != ',')) ↔ '억' ∈ t := by
    simp [List.mem_filter]
  have hm2 : ('만' ∈ t.filter (fun c => c != ',')) ↔ '만' ∈ t := by
    simp [List.mem_filter]
  simp only [hm1, hm2]
  by_cases hA : '억' ∈ t <;> by_cases hB : '만' ∈ t <;> simp [hA, hB]

/-- Evaluation of the parser once its first token is known. -/
lemma parse_eval_of_token {t tok : List Char}
    (h1 : firstNumToken (t.filter (fun c => c != ',')) = some tok) :
    parse_investment_string t = (pyFloat tok).map (fun q =>
      pyTrunc (q * (if '억' ∈ t then 100000000 else 1)
        * (if '만' ∈ t then 10000 else 1))) := by
  simp only [parse_investment_string, h1]
  cases h2 : pyFloat tok with
  | none => simp
  | some q => simp [unit_factors_eq t q]

/-- C4: whenever the parser succeeds, its value is the non-negative integer
obtained by reading the first numeric token as a decimal number, multiplying
by 100,000,000 when 억 occurs anywhere in the text, independently by 10,000
when 만 occurs anywhere in the text, and truncating; in particular 500만원
parses to 5,000,000 and 1억원 to 100,000,000. -/
theorem claim_C4_amount_units :
    (∀ t v, parse_investment_string t = some v →
      0 ≤ v ∧
      ∃ tok q, firstNumToken (t.filter (fun c => c != ',')) = some tok
        ∧ pyFloat tok = some q
        ∧ v = pyTrunc (q * (if '억' ∈ t then 100000000 else 1)
            * (if '만' ∈ t then 10000 else 1)))
    ∧ parse_investment_string "500만원".toList = some 5000000
    ∧ parse_investment_string "1억원".toList = some 100000000 := by
  refine ⟨?_, ?_, ?_⟩
  · intro t v h
    rcases h1 : firstNumToken (t.filter (fun c => c != ',')) with - | tok
    · simp only [parse_investment_string, h1] at h
      exact absurd h (by simp)
    · have hev := parse_eval_of_token h1
      rw [hev] at h
      rcases h2 : pyFloat tok with - | q
      · rw [h2] at h; exact absurd h (by simp)
      · rw [h2] at h
        simp only [Option.map_some', Option.some_inj] at h
        subst h
        have hq : 0 ≤ q := pyFloat_nonneg h2
        have hprod : 0 ≤ q * (if '억' ∈ t then (100000000 : ℚ) else 1)
            * (if '만' ∈ t then (10000 : ℚ) else 1) := by
          by_cases hA : '억' ∈ t <;> by_cases hB : '만' ∈ t <;>
            simp [hA, hB] <;> positivity
        exact ⟨pyTrunc_nonneg hprod, tok, q, rfl, h2, rfl⟩
  · simp +decide [parse_investment_string, firstNumToken, pyFloat, pyTrunc, digitsVal, isNumCh]
    norm_num
  · simp +decide [parse_investment_string, firstNumToken, pyFloat, pyTrunc, digitsVal, isNumCh]

/-- Witness for C4 at a concrete input. -/
theorem claim_C4_witness :
    0 ≤ (5000000 : ℤ)
    ∧ ∃ tok q, firstNumToken ("500만원".toList.filter (fun c => c != ',')) = some tok
        ∧ pyFloat tok = some q
        ∧ (5000000 : ℤ) = pyTrunc (q * (if '억' ∈ "500만원".toList then 100000000 else 1)
            * (if '만' ∈ "500만원".toList then 10000 else 1)) :=
  claim_C4_amount_units.1 "500만원".toList 5000000 claim_C4_amount_units.2.1

/-- C5 (amended): after stripping commas the parser uses exactly the first
maximal run of digit-or-dot characters — with no limit on the number of
decimal points in the run — as its numeric token, ignoring any later token;
it fails when the text has no digit-or-dot character at all, and also when
the extracted token is rejected by the numeric conversion (as happens when
the run carries two decimal points); 1,200,000 parses to 1,200,000. The
original claim's token, cut off at one decimal point, differs from the code
on inputs like 1.2.3. -/
theorem claim_C5_first_token_amended :
    (∀ t pre tok suf,
      t.filter (fun c => c != ',') = pre ++ (tok ++ suf) →
      (∀ c ∈ pre, isNumCh c = false) → tok ≠ [] → (∀ c ∈ tok, isNumCh c = true) →
      (∀ c ∈ suf.take 1, isNumCh c = false) →
      parse_investment_string t = (pyFloat tok).map (fun q =>
        pyTrunc (q * (if '억' ∈ t then 100000000 else 1)
          * (if '만' ∈ t then 10000 else 1))))
    ∧ (∀ t, (∀ c ∈ t, isNumCh c = false) → parse_investment_string t = none)
    ∧ parse_investment_string "1,200,000".toList = some 1200000 := by
  refine ⟨?_, ?_, ?_⟩
  · intro t pre tok suf hsplit hpre htok htok2 hsuf
    exact parse_eval_of_token
      (by rw [hsplit]; exact firstNumToken_of_split hpre htok htok2 hsuf)
  · intro t ht
    have h1 : firstNumToken (t.filter (fun c => c != ',')) = none :=
      firstNumToken_none (fun c hc => ht c (List.mem_of_mem_filter hc))
    simp only [parse_investment_string, h1]
  · simp +decide [parse_investment_string, firstNumToken, pyFloat, pyTrunc, digitsVal, isNumCh]

/-- C5 counterexample: on the input 1.2.3 the specified token (the first
maximal run of digits with at most one decimal point) is 1.2, so the claim
says the parse succeeds and yields 1; but the implementation's token is the
whole run 1.2.3, the numeric conversion rejects it, and the parser fails. -/
theorem claim_C5_counterexample :
    parse_investment_string "1.2.3".toList = none
    ∧ specFirstToken "1.2.3".toList = some "1.2".toList
    ∧ spec_parse_amount "1.2.3".toList = some 1 := by
  refine ⟨?_, by decide, ?_⟩
  · simp +decide [parse_investment_string, firstNumToken, pyFloat, digitsVal, isNumCh]
  · simp +decide [spec_parse_amount, specFirstToken, takeOneDotRun, pyFloat, pyTrunc,
      digitsVal, isNumCh]
    all_goals norm_num

/-- Witness for C5 at concrete inputs, one for each quantified part. -/
theorem claim_C5_witness :
    parse_investment_string "a3.5만!".toList =
      (pyFloat "3.5".toList).map (fun q => pyTrunc (q
        * (if '억' ∈ "a3.5만!".toList then 100000000 else 1)
        * (if '만' ∈ "a3.5만!".toList then 10000 else 1)))
    ∧ parse_investment_string "zz".toList = none := by
  constructor
  · exact claim_C5_first_token_amended.1 "a3.5만!".toList ['a'] "3.5".toList "만!".toList
      (by decide) (by decide) (by decide) (by decide) (by decide)
  · exact claim_C5_first_token_amended.2.1 "zz".toList (by decide)

/-- C6: for either enumerated category the calculator always returns one of
its user-facing outcomes — the amount-error message, the rate-not-found
message, or one of the two formatted result blocks; the embedded function is
total, so no failure escapes the calculator boundary. -/
theorem claim_C6_total_outcomes :
    ∀ pn a rt ct, ct = "예금".toList ∨ ct = "적금".toList →
      calculate_final_amount pn a rt ct = CalcOutcome.amountErrorMsg
      ∨ calculate_final_amount pn a rt ct = CalcOutcome.rateNotFoundMsg pn
      ∨ (∃ p i tx f, calculate_final_amount pn a rt ct = CalcOutcome.depositResult p i tx f)
      ∨ (∃ s m tp i tx f,
          calculate_final_amount pn a rt ct = CalcOutcome.savingsResult s m tp i tx f) := by
  intro pn a rt ct hct
  rcases h1 : parse_investment_string a with - | p
  · left; simp only [calculate_final_amount, h1]
  · rcases h2 : searchRate pn rt with - | tok
    · right; left; simp only [calculate_final_amount, h1, h2]
    · rcases h3 : pyFloat tok with - | r
      · left; simp only [calculate_final_amount, h1, h2, h3]
      · rcases hct with rfl | rfl
        · right; right; left
          refine ⟨(p : ℚ), (p : ℚ) * (r / 100), (p : ℚ) * (r / 100) * 0.154,
            (p : ℚ) + (p : ℚ) * (r / 100) - (p : ℚ) * (r / 100) * 0.154, ?_⟩
          simp only [calculate_final_amount, h1, h2, h3]
          norm_num
        · right; right; right
          refine ⟨a, (p : ℚ), (p : ℚ) * 12,
            (p : ℚ) * (r / 100) * (12 * (12 + 1) / 2) / 12,
            (p : ℚ) * (r / 100) * (12 * (12 + 1) / 2) / 12 * 0.154,
            (p : ℚ) * 12 + (p : ℚ) * (r / 100) * (12 * (12 + 1) / 2) / 12
              - (p : ℚ) * (r / 100) * (12 * (12 + 1) / 2) / 12 * 0.154, ?_⟩
          simp only [calculate_final_amount, h1, h2, h3]
          norm_num
          intro hch
          exact absurd hch (by decide)

/-- Witness for C6 at a concrete input. -/
theorem claim_C6_witness :
    calculate_final_amount "P".toList "hello".toList "P 연 3%".toList "예금".toList
        = CalcOutcome.amountErrorMsg
      ∨ calculate_final_amount "P".toList "hello".toList "P 연 3%".toList "예금".toList
        = CalcOutcome.rateNotFoundMsg "P".toList
      ∨ (∃ p i tx f, calculate_final_amount "P".toList "hello".toList "P 연 3%".toList
          "예금".toList = CalcOutcome.depositResult p i tx f)
      ∨ (∃ s m tp i tx f, calculate_final_amount "P".toList "hello".toList "P 연 3%".toList
          "예금".toList = CalcOutcome.savingsResult s m tp i tx f) :=
  claim_C6_total_outcomes "P".toList "hello".toList "P 연 3%".toList "예금".toList
    (Or.inl rfl)

/-- C7: the parser fails exactly when the comma-stripped text has no numeric
token or the extracted token is rejected by the numeric conversion; the empty
string fails, and the calculator turns that failure into the user-facing
amount-error message for any product name, text and category, instead of
crashing. -/
theorem claim_C7_parse_error_iff :
    (∀ t, parse_investment_string t = none ↔
      firstNumToken (t.filter (fun c => c != ',')) = none
      ∨ ∃ tok, firstNumToken (t.filter (fun c => c != ',')) = some tok
          ∧ pyFloat tok = none)
    ∧ parse_investment_string "".toList = none
    ∧ (∀ pn rt ct, calculate_final_amount pn "".toList rt ct
        = CalcOutcome.amountErrorMsg) := by
  refine ⟨?_, by decide, ?_⟩
  · intro t
    constructor
    · intro h
      rcases h1 : firstNumToken (t.filter (fun c => c != ',')) with - | tok
      · exact Or.inl rfl
      · rcases h2 : pyFloat tok with - | q
        · exact Or.inr ⟨tok, rfl, h2⟩
        · rw [parse_eval_of_token h1, h2] at h
          exact absurd h (by simp)
    · intro h
      rcases h with h1 | ⟨tok, h1, h2⟩
      · simp only [parse_investment_string, h1]
      · rw [parse_eval_of_token h1, h2]
        rfl
  · intro pn rt ct
    have h1 : parse_investment_string "".toList = none := by decide
    simp only [calculate_final_amount, h1]

/-- C8 (amended): when the rate pattern is found but the captured token is
rejected by the numeric conversion, the calculator reports the very same
amount-error message it reports for an unusable amount string — the
ValueError raised by float() on the rate token is caught by the shared
except (IndexError, ValueError) clause — and not the generic
calculation-error message. The original claim of a distinct CalculationError
fails on the code. -/
theorem claim_C8_rate_anomaly_amended :
    ∀ pn a rt ct p tok,
      parse_investment_string a = some p →
      searchRate pn rt = some tok →
      pyFloat tok = none →
      calculate_final_amount pn a rt ct = CalcOutcome.amountErrorMsg := by
  intro pn a rt ct p tok h1 h2 h3
  simp only [calculate_final_amount, h1, h2, h3]

/-- C8 counterexample: on the text P 연 1.2.3% the rate pattern is found and
captures the token 1.2.3, which fails conversion; the calculator reports the
amount-error message — exactly the outcome of the unusable amount string xyz
— and not the generic calculation-error message. -/
theorem claim_C8_counterexample :
    searchRate "P".toList "P 연 1.2.3%".toList = some "1.2.3".toList
    ∧ pyFloat "1.2.3".toList = none
    ∧ calculate_final_amount "P".toList "500만원".toList "P 연 1.2.3%".toList "예금".toList
        = CalcOutcome.amountErrorMsg
    ∧ calculate_final_amount "P".toList "xyz".toList "P 연 1.2.3%".toList "예금".toList
        = CalcOutcome.amountErrorMsg
    ∧ CalcOutcome.amountErrorMsg ≠ CalcOutcome.calcErrorMsg := by
  refine ⟨by decide, by decide, ?_, ?_, by decide⟩
  · simp +decide [calculate_final_amount, parse_investment_string, firstNumToken, pyFloat,
      pyTrunc, digitsVal, isNumCh, searchRate, scanGap, matchRateAt, isWsCh]
  · simp +decide [calculate_final_amount, parse_investment_string, firstNumToken, pyFloat,
      pyTrunc, digitsVal, isNumCh, searchRate, scanGap, matchRateAt, isWsCh]

/-- Witness for C8 at a concrete input. -/
theorem claim_C8_witness :
    calculate_final_amount "Q".toList "7000".toList "Q 연 ..%".toList "적금".toList
      = CalcOutcome.amountErrorMsg :=
  claim_C8_rate_anomaly_amended "Q".toList "7000".toList "Q 연 ..%".toList "적금".toList
    7000 "..".toList
    (by simp +decide [parse_investment_string, firstNumToken, pyFloat, pyTrunc, digitsVal,
        isNumCh])
    (by decide) (by decide)

/-- C9: the calculator is a pure function of its four inputs: the embedding
of calculate_final_amount reads nothing but its arguments (the Python
function touches no module or session state and calls only re and float),
so two calls on identical inputs return identical outcomes. -/
theorem claim_C9_deterministic :
    ∀ pn a rt ct,
      calculate_final_amount pn a rt ct = calculate_final_amount pn a rt ct :=
  fun _ _ _ _ => rfl

/-- C10 (amended): when the amount parses, the rate pattern is found and its
token converts, but the category is neither 예금 nor 적금, the calculator
returns Python's None, not a formatted result and not an error message; the
enumerated categories alone produce formatted results, though error messages
for earlier failures are produced whatever the category is. -/
theorem claim_C10_unknown_category_amended :
    ∀ pn a rt ct p tok r,
      parse_investment_string a = some p →
      searchRate pn rt = some tok →
      pyFloat tok = some r →
      ct ≠ "예금".toList → ct ≠ "적금".toList →
      calculate_final_amount pn a rt ct = CalcOutcome.pyNone := by
  intro pn a rt ct p tok r h1 h2 h3 hc1 hc2
  simp only [calculate_final_amount, h1, h2, h3]
  rw [if_neg hc1, if_neg hc2]

/-- C10 counterexample: with the parsable amount 500만원, the found rate
pattern 연 1.2.3% and the non-enumerated category 기타, the calculator does
not return None — the rate token fails conversion first and the amount-error
message comes back, so a non-enumerated category still produces user-facing
text. -/
theorem claim_C10_counterexample :
    parse_investment_string "500만원".toList = some 5000000
    ∧ searchRate "P".toList "P 연 1.2.3%".toList = some "1.2.3".toList
    ∧ "기타".toList ≠ "예금".toList
    ∧ "기타".toList ≠ "적금".toList
    ∧ calculate_final_amount "P".toList "500만원".toList "P 연 1.2.3%".toList "기타".toList
        = CalcOutcome.amountErrorMsg
    ∧ CalcOutcome.amountErrorMsg ≠ CalcOutcome.pyNone := by
  refine ⟨?_, by decide, by decide, by decide, ?_, by decide⟩
  · simp +decide [parse_investment_string, firstNumToken, pyFloat, pyTrunc, digitsVal, isNumCh]
    all_goals norm_num
  · simp +decide [calculate_final_amount, parse_investment_string, firstNumToken, pyFloat,
      pyTrunc, digitsVal, isNumCh, searchRate, scanGap, matchRateAt, isWsCh]

/-- Witness for C10 at a concrete input. -/
theorem claim_C10_witness :
    calculate_final_amount "P".toList "500만원".toList "P 연 3.5%".toList "기타".toList
      = CalcOutcome.pyNone :=
  claim_C10_unknown_category_amended "P".toList "500만원".toList "P 연 3.5%".toList
    "기타".toList 5000000 "3.5".toList (7/2)
    (by simp +decide [parse_investment_string, firstNumToken, pyFloat, pyTrunc, digitsVal,
        isNumCh]
        all_goals norm_num)
    (by decide)
    (by simp +decide [pyFloat, digitsVal]
        norm_num)
    (by decide) (by decide)
